import Mathlib

/-!
Shallow embedding of the ebpH userspace data model and administrative
interface (files `ebph/structs.py` and `ebph/libebph/__init__.py`),
with theorems checking the specification's claims about them.
Machine integers are modelled as `Nat` with explicit `% 2^w` where the
ctypes field widths matter.
-/

namespace EbpH

/-! ### Event taxonomy (`EBPH_LSM`, structs.py lines 78-180)

A Python `IntEnum` whose members are declared with `auto()` starting at 0,
so the value of each member is its position in the declaration order.
We embed the enum as the list of member names; `member i` has value `i`. -/

/-- Member names of the `EBPH_LSM` IntEnum, in declaration order.
The value of each member is its index in this list (`auto()` from 0). -/
def lsmNames : List String :=
  [ "BPRM_CHECK_SECURITY", "TASK_ALLOC", "TASK_FREE", "TASK_SETPGID",
    "TASK_GETPGID", "TASK_GETSID", "TASK_SETNICE", "TASK_SETIOPRIO",
    "TASK_GETIOPRIO", "TASK_PRLIMIT", "TASK_SETRLIMIT", "TASK_SETSCHEDULER",
    "TASK_GETSCHEDULER", "TASK_MOVEMEMORY", "TASK_KILL", "TASK_PRCTL",
    "SB_STATFS", "SB_MOUNT", "SB_REMOUNT", "SB_UMOUNT", "SB_PIVOTROOT",
    "MOVE_MOUNT", "INODE_CREATE", "INODE_LINK", "INODE_SYMLINK",
    "INODE_MKDIR", "INODE_RMDIR", "INODE_MKNOD", "INODE_RENAME",
    "INODE_READLINK", "INODE_FOLLOW_LINK", "INODE_PERMISSION",
    "INODE_SETATTR", "INODE_GETATTR", "INODE_SETXATTR", "INODE_GETXATTR",
    "INODE_LISTXATTR", "INODE_REMOVEXATTR", "FILE_PERMISSION", "FILE_IOCTL",
    "MMAP_ADDR", "MMAP_FILE", "FILE_MPROTECT", "FILE_LOCK", "FILE_FCNTL",
    "FILE_SEND_SIGIOTASK", "FILE_RECEIVE", "UNIX_STREAM_CONNECT",
    "UNIX_MAY_SEND", "SOCKET_CREATE", "SOCKET_SOCKETPAIR", "SOCKET_BIND",
    "SOCKET_CONNECT", "SOCKET_LISTEN", "SOCKET_ACCEPT", "SOCKET_SENDMSG",
    "SOCKET_RECVMSG", "SOCKET_GETSOCKNAME", "SOCKET_GETPEERNAME",
    "SOCKET_GETSOCKOPT", "SOCKET_SETSOCKOPT", "SOCKET_SHUTDOWN",
    "TUN_DEV_CREATE", "TUN_DEV_ATTACH", "KEY_ALLOC", "KEY_FREE",
    "KEY_PERMISSION", "IPC_PERMISSION", "MSG_QUEUE_ASSOCIATE",
    "MSG_QUEUE_MSGCTL", "MSG_QUEUE_MSGSND", "MSG_QUEUE_MSGRCV",
    "SHM_ASSOCIATE", "SHM_SHMCTL", "SHM_SHMAT", "PTRACE_ACCESS_CHECK",
    "PTRACE_TRACEME", "CAPGET", "CAPSET", "CAPABLE", "QUOTACTL", "QUOTA_ON",
    "SYSLOG", "SETTIME", "VM_ENOUGH_MEMORY", "BPF", "BPF_MAP", "BPF_PROG",
    "PERF_EVENT_OPEN", "LSM_MAX" ]

/-- Lowercasing of one ASCII character, as Python `str.lower` acts on the
enum member names (which are ASCII). -/
def lowerChar (c : Char) : Char :=
  if c.toNat ≥ 65 ∧ c.toNat ≤ 90 then Char.ofNat (c.toNat + 32) else c

/-- Python `str.lower()` on an ASCII string: lowercase every character. -/
def lowerStr (s : String) : String := ⟨s.data.map lowerChar⟩

/-- `EBPH_LSM.get_name` (structs.py 175-180): `EBPH_LSM(num)` looks the value
up among the members (raising `ValueError` when absent, caught and turned
into `"empty"`); on success the member's name is lowercased. -/
def EBPH_LSM.get_name (num : Int) : String :=
  match lsmNames.enum.find? (fun p => (p.1 : Int) == num) with
  | some p => lowerStr p.2
  | none => "empty"

/-- `NUM_LSM = int(EBPH_LSM.LSM_MAX)` (structs.py 183): the value of the last
member `LSM_MAX`, i.e. the index of the last name. -/
def NUM_LSM : Nat := lsmNames.length - 1

/-! ### Profile status flags (`EBPH_PROFILE_STATUS`, structs.py 52-60) -/

/-- Status bit `TRAINING = 0x1`. -/
def EBPH_PROFILE_STATUS.TRAINING : Nat := 0x1

/-- Status bit `FROZEN = 0x2`. -/
def EBPH_PROFILE_STATUS.FROZEN : Nat := 0x2

/-- Status bit `NORMAL = 0x4`. -/
def EBPH_PROFILE_STATUS.NORMAL : Nat := 0x4

/-- A status byte assembling an arbitrary subset of the three flags. -/
def statusMask (t f n : Bool) : Nat :=
  (if t then EBPH_PROFILE_STATUS.TRAINING else 0) |||
  (if f then EBPH_PROFILE_STATUS.FROZEN else 0) |||
  (if n then EBPH_PROFILE_STATUS.NORMAL else 0)

/-! ### Settings registry (`EBPH_SETTINGS`, structs.py 63-76)

An `IntEnum` declared with `MONITORING = 0` and `auto()` for the rest,
so values are declaration positions. -/

/-- Member names of the `EBPH_SETTINGS` IntEnum in declaration order;
the value of each member is its index. -/
def settingsNames : List String :=
  [ "MONITORING", "LOG_SEQUENCES", "NORMAL_WAIT", "NORMAL_FACTOR",
    "NORMAL_FACTOR_DEN", "ANOMALY_LIMIT", "TOLERIZE_LIMIT", "ENFORCING" ]

/-! ### Profile magic (`calculate_profile_magic`, structs.py 39-49)

The function hashes the `x.x` (major.minor) part of the version string with
sha256 and masks the digest to 64 bits. `hashlib.sha256` is an external
library and `ebph/version.py` is not under src, so the digest function and
the version string are parameters / modelled constants. -/

/-- Splitting a character list at every occurrence of a separator,
keeping empty pieces — the semantics of Python `str.split(sep)`. -/
def splitChar (sep : Char) : List Char → List (List Char)
  | [] => [[]]
  | c :: cs =>
    match splitChar sep cs with
    | [] => [[]]
    | w :: ws => if c = sep then [] :: w :: ws else (c :: w) :: ws

/-- Python `version.split('.')`. -/
def pySplitDot (s : String) : List String :=
  (splitChar '.' s.data).map fun l => ⟨l⟩

/-- The `'.'.join(__version__.split('.')[:2])` step of
`calculate_profile_magic`: keep only the first two dot-separated
components of the version string. -/
def majorMinor (version : String) : String :=
  String.intercalate "." ((pySplitDot version).take 2)

/-- `calculate_profile_magic` (structs.py 39-49), parameterized by the
digest-as-integer function `sha256hex` standing for
`int(sha256(bytes).hexdigest(), 16)`: hash the major.minor part of the
version and mask to 64 bits. -/
def calculate_profile_magic (sha256hex : String → Nat) (version : String) : Nat :=
  sha256hex (majorMinor version) &&& 0xFFFFFFFFFFFFFFFF

/-- Modelled from the spec: a stand-in for the external
`int(hashlib.sha256(s).hexdigest(), 16)` digest function, which is not part
of this repository. Any concrete function works for the claims proved here. -/
def sha256_model (s : String) : Nat :=
  s.data.foldl (fun a c => a * 131 + c.toNat) 5381

/-- Modelled from the spec: the engine's version string
(`ebph/version.py` is not under src). -/
def ebph_version : String := "0.3.0"

/-- The concrete magic number used by profile import/export. -/
def profile_magic : Nat := calculate_profile_magic sha256_model ebph_version

/-! ### Profile structures (structs.py 185-242) -/

/-- Modelled from the spec: `defs.PATH_MAX` — `ebph/defs.py` is not under
src; the spec says only that the executable path field is bounded and
fixed-size, so we use the conventional Linux bound. None of the theorems
depend on its exact value. -/
def PATH_MAX : Nat := 4096

/-- Length of the `flags` array of `EBPHProfileDataStruct`
(structs.py 190-195): `(NUM_LSM * NUM_LSM) & sys.maxsize`
with `sys.maxsize = 2^63 - 1`. -/
def flagsLen : Nat := (NUM_LSM * NUM_LSM) &&& (2 ^ 63 - 1)

/-- `EBPHProfileDataStruct` (structs.py 185-195): a ctypes structure with a
single field `flags`, an array of `flagsLen` unsigned bytes. We model the
array as a list of `Nat` whose well-formed values have length `flagsLen`
and entries below 256. -/
structure EBPHProfileDataStruct where
  flags : List Nat
deriving Repr, DecidableEq

/-- Representability of a matrix value as the ctypes array: correct length
and byte-sized entries. -/
def EBPHProfileDataStruct.wf (d : EBPHProfileDataStruct) : Prop :=
  d.flags.length = flagsLen ∧ ∀ x ∈ d.flags, x < 256

instance (d : EBPHProfileDataStruct) : Decidable d.wf := by
  unfold EBPHProfileDataStruct.wf; infer_instance

/-- The zero-initialized `EBPHProfileDataStruct()` value. -/
def EBPHProfileDataStruct.zero : EBPHProfileDataStruct :=
  ⟨List.replicate flagsLen 0⟩

/-- `EBPHProfileDataStruct.__eq__` (structs.py 197-206): equal lengths and
equal entries pointwise, `False` on any failure. -/
def EBPHProfileDataStruct.eq (self other : EBPHProfileDataStruct) : Bool :=
  self.flags.length == other.flags.length &&
    (List.range self.flags.length).all fun i =>
      self.flags.getD i 0 == other.flags.getD i 0

/-- `EBPHProfileStruct` (structs.py 209-227): the userspace view of a
profile. Field order and ctypes widths:
`magic : u64, profile_key : u64, status : u8, anomaly_count : u64,
train_count : u64, last_mod_count : u64, sequences : u64,
normal_time : u64, count : u64, train : EBPHProfileDataStruct,
test : EBPHProfileDataStruct, exe : char[PATH_MAX]`.
The `exe` field holds the value as ctypes reads it back: the bytes up to
the first NUL, at most `PATH_MAX` long. -/
structure EBPHProfileStruct where
  magic : Nat
  profile_key : Nat
  status : Nat
  anomaly_count : Nat
  train_count : Nat
  last_mod_count : Nat
  sequences : Nat
  normal_time : Nat
  count : Nat
  train : EBPHProfileDataStruct
  test : EBPHProfileDataStruct
  exe : List Nat
deriving Repr, DecidableEq

/-- Representability of a profile value in the ctypes structure: every
scalar within its field width, well-formed matrices, and an executable
path that fits the NUL-terminated `char[PATH_MAX]` array (byte-sized
entries, no interior NUL, room for the terminator). -/
def EBPHProfileStruct.wf (p : EBPHProfileStruct) : Prop :=
  p.magic < 2 ^ 64 ∧ p.profile_key < 2 ^ 64 ∧ p.status < 2 ^ 8 ∧
  p.anomaly_count < 2 ^ 64 ∧ p.train_count < 2 ^ 64 ∧
  p.last_mod_count < 2 ^ 64 ∧ p.sequences < 2 ^ 64 ∧
  p.normal_time < 2 ^ 64 ∧ p.count < 2 ^ 64 ∧
  p.train.wf ∧ p.test.wf ∧
  p.exe.length < PATH_MAX ∧ (∀ b ∈ p.exe, b ≠ 0) ∧ (∀ b ∈ p.exe, b < 256)

instance (p : EBPHProfileStruct) : Decidable p.wf := by
  unfold EBPHProfileStruct.wf; infer_instance

/-- The zero-initialized `EBPHProfileStruct()` value. -/
def EBPHProfileStruct.zero : EBPHProfileStruct :=
  { magic := 0, profile_key := 0, status := 0, anomaly_count := 0,
    train_count := 0, last_mod_count := 0, sequences := 0, normal_time := 0,
    count := 0, train := EBPHProfileDataStruct.zero,
    test := EBPHProfileDataStruct.zero, exe := [] }

/-- Reading a value out of the `char[PATH_MAX]` array after storing the
byte string `bs`: ctypes returns the bytes before the first NUL. -/
def exeRead (bs : List Nat) : List Nat := bs.takeWhile (· ≠ 0)

/-- `EBPHProfileStruct.__eq__` (structs.py 229-242): nine field
comparisons (`profile_key`, `status`, `anomaly_count`, `train_count`,
`last_mod_count`, `sequences`, `normal_time`, `count`, `exe`) inside a
`try`; any failure — such as the other object lacking the attributes,
modelled by `none` — yields `False` instead of raising. `magic`, `train`
and `test` are not consulted. -/
def EBPHProfileStruct.eq (self : EBPHProfileStruct)
    (other : Option EBPHProfileStruct) : Bool :=
  match other with
  | none => false
  | some o =>
    self.profile_key == o.profile_key && self.status == o.status &&
    self.anomaly_count == o.anomaly_count &&
    self.train_count == o.train_count &&
    self.last_mod_count == o.last_mod_count &&
    self.sequences == o.sequences && self.normal_time == o.normal_time &&
    self.count == o.count && self.exe == o.exe

/-! ### The BPF-side maps (external collaborator state)

`from_bpf` / `load_into_bpf` exchange data with three BPF hash maps:
`profiles` (scalar header leaf), `training_data` and `testing_data`
(one `EBPHProfileDataStruct` each), all keyed by the u64 profile key. -/

/-- The BPF-side `profiles` map leaf. Its definition lives in the BPF C
program (not under src); the Python code reads and writes exactly these
seven scalar fields, with the same widths as the userspace mirror
(`status` u8, the counters u64). -/
structure ProfileLeaf where
  status : Nat
  anomaly_count : Nat
  train_count : Nat
  last_mod_count : Nat
  sequences : Nat
  normal_time : Nat
  count : Nat
deriving Repr, DecidableEq

/-- The zero-initialized `bpf['profiles'].Leaf()` value. -/
def ProfileLeaf.zero : ProfileLeaf :=
  { status := 0, anomaly_count := 0, train_count := 0, last_mod_count := 0,
    sequences := 0, normal_time := 0, count := 0 }

/-- The three BPF maps touched by profile import and export, keyed by the
u64 profile key. -/
structure BPFState where
  profiles : Nat → Option ProfileLeaf
  training_data : Nat → Option EBPHProfileDataStruct
  testing_data : Nat → Option EBPHProfileDataStruct

/-- `EBPHProfileStruct.from_bpf` (structs.py 251-293). A zeroed profile
gets `magic` (recomputed), `profile_key` and `exe`; the scalar header is
copied from `profiles[key]`, raising `KeyError` (modelled by
`Except.error`) when the key is absent; each matrix is memmoved from its
map when present, and silently left zeroed when the lookup raises
(`except ... pass`). Map keys pass through `ct.c_uint64`, hence `% 2^64`;
leaf fields land in ctypes fields of width u8 / u64. -/
def EBPHProfileStruct.from_bpf (bpf : BPFState) (exe : List Nat)
    (profile_key : Nat) : Except String EBPHProfileStruct :=
  let k := profile_key % 2 ^ 64
  let profile0 : EBPHProfileStruct :=
    { EBPHProfileStruct.zero with
        magic := profile_magic % 2 ^ 64,
        profile_key := k,
        exe := exeRead exe }
  match bpf.profiles k with
  | none => Except.error "Profile does not exist in BPF map"
  | some bpf_profile =>
    let profile1 : EBPHProfileStruct :=
      { profile0 with
          status := bpf_profile.status % 2 ^ 8,
          anomaly_count := bpf_profile.anomaly_count % 2 ^ 64,
          train_count := bpf_profile.train_count % 2 ^ 64,
          last_mod_count := bpf_profile.last_mod_count % 2 ^ 64,
          sequences := bpf_profile.sequences % 2 ^ 64,
          normal_time := bpf_profile.normal_time % 2 ^ 64,
          count := bpf_profile.count % 2 ^ 64 }
    let profile2 : EBPHProfileStruct :=
      match bpf.training_data k with
      | none => profile1
      | some t => { profile1 with train := t }
    let profile3 : EBPHProfileStruct :=
      match bpf.testing_data k with
      | none => profile2
      | some t => { profile2 with test := t }
    Except.ok profile3

/-- `EBPHProfileStruct.load_into_bpf` (structs.py 295-326). The seven
scalar header fields are copied into a fresh `profiles` leaf and the two
matrices are memmoved into their maps, all stored under
`ct.c_uint64(profile_key)`. `magic` and `exe` are not persisted into the
BPF maps. -/
def EBPHProfileStruct.load_into_bpf (p : EBPHProfileStruct)
    (bpf : BPFState) : BPFState :=
  let k := p.profile_key % 2 ^ 64
  let bpf_profile : ProfileLeaf :=
    { status := p.status % 2 ^ 8,
      anomaly_count := p.anomaly_count % 2 ^ 64,
      train_count := p.train_count % 2 ^ 64,
      last_mod_count := p.last_mod_count % 2 ^ 64,
      sequences := p.sequences % 2 ^ 64,
      normal_time := p.normal_time % 2 ^ 64,
      count := p.count % 2 ^ 64 }
  { profiles := fun key => if key = k then some bpf_profile else bpf.profiles key,
    training_data := fun key => if key = k then some p.train else bpf.training_data key,
    testing_data := fun key => if key = k then some p.test else bpf.testing_data key }

/-! ### Persisted byte layout (claim C2)

`EBPHProfileStruct` declares its persisted layout through the ordered
`_fields_` tuple (structs.py 214-227). `toBytes` serializes a profile
field by field in exactly that declared order; `parseProfileLayout` is the
second half of the refinement pair: it reads a byte string following the
spec's description of the layout, word for word. -/

/-- Modelled from the spec: the engine state the administrative commands
act on — the BPF profile maps, the task table binding each pid to its
profile key, and the settings registry. -/
structure EngineState where
  bpf : BPFState
  processes : Nat → Option Nat
  settings : Nat → Nat

/-- Modelled from the spec: `set_setting(key: c_int, value: c_uint64) ->
c_int` — stores `value` under a recognized setting key and returns 0;
an unrecognized key is an invalid argument, rejected with a negative
error code and no mutation. -/
def set_setting (key : Int) (value : Nat) (s : EngineState) :
    Int × EngineState :=
  let v := value % 2 ^ 64
  if 0 ≤ key ∧ key < (settingsNames.length : Int) then
    (0, { s with
            settings := fun k => if k = key.toNat then v else s.settings k })
  else (-22, s)

/-- Modelled from the spec: `normalize_profile(profile_key: c_uint64) ->
c_int` — force-sets NORMAL (clearing TRAINING and FROZEN), resets
`last_mod_count = train_count`, returns 0; a missing profile returns a
negative error code. -/
def normalize_profile (profile_key : Nat) (s : EngineState) :
    Int × EngineState :=
  let k := profile_key % 2 ^ 64
  match s.bpf.profiles k with
  | none => (-2, s)
  | some p =>
    let p' := { p with status := EBPH_PROFILE_STATUS.NORMAL,
                       last_mod_count := p.train_count }
    (0, { s with bpf := { s.bpf with
            profiles := fun key => if key = k then some p'
                                   else s.bpf.profiles key } })

/-- Modelled from the spec: `sensitize_profile(profile_key: c_uint64) ->
c_int` — clears NORMAL and FROZEN, re-sets TRAINING, keeps the
accumulated matrices, returns 0; a missing profile returns a negative
error code. -/
def sensitize_profile (profile_key : Nat) (s : EngineState) :
    Int × EngineState :=
  let k := profile_key % 2 ^ 64
  match s.bpf.profiles k with
  | none => (-2, s)
  | some p =>
    let p' := { p with status := EBPH_PROFILE_STATUS.TRAINING }
    (0, { s with bpf := { s.bpf with
            profiles := fun key => if key = k then some p'
                                   else s.bpf.profiles key } })

/-- Modelled from the spec: `tolerize_profile(profile_key: c_uint64) ->
c_int` — merges all set bits of the test matrix into the train matrix
(bitwise OR) and clears `anomaly_count`, returning 0; a missing profile
returns a negative error code. -/
def tolerize_profile (profile_key : Nat) (s : EngineState) :
    Int × EngineState :=
  let k := profile_key % 2 ^ 64
  match s.bpf.profiles k with
  | none => (-2, s)
  | some p =>
    let train := (s.bpf.training_data k).getD EBPHProfileDataStruct.zero
    let test := (s.bpf.testing_data k).getD EBPHProfileDataStruct.zero
    let merged : EBPHProfileDataStruct :=
      ⟨List.zipWith (· ||| ·) train.flags test.flags⟩
    let p' := { p with anomaly_count := 0 }
    (0, { s with bpf := { s.bpf with
            profiles := fun key => if key = k then some p'
                                   else s.bpf.profiles key,
            training_data := fun key => if key = k then some merged
                                        else s.bpf.training_data key } })

/-- Modelled from the spec: each `*_process(pid: c_uint32) -> c_int`
variant resolves the task's bound profile key and delegates to the
`*_profile` form; an unknown pid returns a negative error code. -/
def resolve_process (pid : Nat) (s : EngineState)
    (onProfile : Nat → EngineState → Int × EngineState) :
    Int × EngineState :=
  match s.processes (pid % 2 ^ 32) with
  | none => (-3, s)
  | some profile_key => onProfile profile_key s

/-- Modelled from the spec: `normalize_process(pid: c_uint32) -> c_int`. -/
def normalize_process (pid : Nat) (s : EngineState) : Int × EngineState :=
  resolve_process pid s normalize_profile

/-- Modelled from the spec: `sensitize_process(pid: c_uint32) -> c_int`. -/
def sensitize_process (pid : Nat) (s : EngineState) : Int × EngineState :=
  resolve_process pid s sensitize_profile

/-- Modelled from the spec: `tolerize_process(pid: c_uint32) -> c_int`. -/
def tolerize_process (pid : Nat) (s : EngineState) : Int × EngineState :=
  resolve_process pid s tolerize_profile

/-- Modelled from the spec: `bootstrap_process(profile_key: c_uint64,
pid: c_uint32, tgid: c_uint32, pathname: c_char_p) -> c_int` — creates a
TRAINING profile with zeroed matrices for a previously unseen key, binds
the task to it, and returns 0; a malformed pathname (overlong or with an
interior NUL) is an invalid argument, rejected with a negative error
code and no mutation. -/
def bootstrap_process (profile_key : Nat) (pid : Nat) (tgid : Nat)
    (pathname : List Nat) (s : EngineState) : Int × EngineState :=
  let k := profile_key % 2 ^ 64
  let p := pid % 2 ^ 32
  let _ := tgid % 2 ^ 32
  if PATH_MAX ≤ pathname.length ∨ 0 ∈ pathname then (-22, s)
  else
    let prof : ProfileLeaf :=
      match s.bpf.profiles k with
      | some q => q
      | none => { ProfileLeaf.zero with
                    status := EBPH_PROFILE_STATUS.TRAINING }
    let train := (s.bpf.training_data k).getD EBPHProfileDataStruct.zero
    let test := (s.bpf.testing_data k).getD EBPHProfileDataStruct.zero
    (0, { bpf := { profiles := fun key => if key = k then some prof
                                          else s.bpf.profiles key,
                   training_data := fun key => if key = k then some train
                                               else s.bpf.training_data key,
                   testing_data := fun key => if key = k then some test
                                              else s.bpf.testing_data key },
          processes := fun q => if q = p then some k else s.processes q,
          settings := s.settings })

/-! ## Theorems -/

set_option maxRecDepth 10000

/-- Helper: the enum member lookup fails for every integer outside the
value range of the enum. -/
lemma enum_find_none (l : List String) (num : Int)
    (h : num < 0 ∨ (l.length : Int) ≤ num) :
    l.enum.find? (fun p => (p.1 : Int) == num) = none := by
  apply List.find?_eq_none.2
  rintro ⟨i, a⟩ hx
  have hget := List.mk_mem_enum_iff_getElem?.1 hx
  have hlt : i < l.length := (List.getElem?_eq_some.1 hget).1
  simp only [beq_iff_eq, ne_eq]
  intro hcontra
  omega

/-- C10: `EBPH_LSM.get_name` is total on the integers — every valid
`EBPH_LSM` variant value is mapped to that variant's name in lowercase,
and every other integer is mapped to the string `"empty"`. -/
theorem C10_get_name_total :
    (∀ i : Fin lsmNames.length,
      EBPH_LSM.get_name i.val = lowerStr (lsmNames.get i)) ∧
    (∀ num : Int, num < 0 ∨ (lsmNames.length : Int) ≤ num →
      EBPH_LSM.get_name num = "empty") := by
  constructor
  · decide
  · intro num h
    unfold EBPH_LSM.get_name
    rw [enum_find_none lsmNames num h]

/-- Witness for C10 at the concrete inputs 14, -1 and 90. -/
theorem C10_get_name_total_witness :
    EBPH_LSM.get_name 14 = "task_kill" ∧
    EBPH_LSM.get_name (-1) = "empty" ∧
    EBPH_LSM.get_name 90 = "empty" :=
  ⟨by have := C10_get_name_total.1 ⟨14, by decide⟩; simpa using this,
   C10_get_name_total.2 (-1) (Or.inl (by decide)),
   C10_get_name_total.2 90 (Or.inr (by decide))⟩

/-- C6: `calculate_profile_magic` depends only on the first two
dot-separated components of the version string — two versions sharing
major and minor yield the same magic, for every digest function — and the
result is always below `2^64`. -/
theorem C6_magic_version_fingerprint :
    ∀ (h : String → Nat) (v1 v2 : String),
      ((pySplitDot v1).take 2 = (pySplitDot v2).take 2 →
        calculate_profile_magic h v1 = calculate_profile_magic h v2) ∧
      calculate_profile_magic h v1 < 2 ^ 64 := by
  intro h v1 v2
  constructor
  · intro heq
    unfold calculate_profile_magic majorMinor
    rw [heq]
  · exact Nat.lt_of_le_of_lt Nat.and_le_right (by norm_num)

/-- Witness for C6 at the digest model and two concrete versions sharing
their major.minor prefix. -/
theorem C6_magic_version_fingerprint_witness :
    (pySplitDot "0.3.7").take 2 = (pySplitDot "0.3.99").take 2 ∧
    calculate_profile_magic sha256_model "0.3.7" =
      calculate_profile_magic sha256_model "0.3.99" ∧
    calculate_profile_magic sha256_model "0.3.7" < 2 ^ 64 :=
  ⟨by decide,
   (C6_magic_version_fingerprint sha256_model "0.3.7" "0.3.99").1 (by decide),
   (C6_magic_version_fingerprint sha256_model "0.3.7" "0.3.99").2⟩

/-- C7: TRAINING, FROZEN and NORMAL are pairwise-distinct single bits
(0x1, 0x2, 0x4), so every subset of the three flags — in particular NORMAL
together with FROZEN with TRAINING cleared — is representable
simultaneously in one status byte, each flag recoverable independently. -/
theorem C7_status_flags_bits :
    EBPH_PROFILE_STATUS.TRAINING = 0x1 ∧
    EBPH_PROFILE_STATUS.FROZEN = 0x2 ∧
    EBPH_PROFILE_STATUS.NORMAL = 0x4 ∧
    EBPH_PROFILE_STATUS.TRAINING ≠ EBPH_PROFILE_STATUS.FROZEN ∧
    EBPH_PROFILE_STATUS.TRAINING ≠ EBPH_PROFILE_STATUS.NORMAL ∧
    EBPH_PROFILE_STATUS.FROZEN ≠ EBPH_PROFILE_STATUS.NORMAL ∧
    (∀ t f n : Bool,
      statusMask t f n < 256 ∧
      ((statusMask t f n &&& EBPH_PROFILE_STATUS.TRAINING ≠ 0) ↔ t = true) ∧
      ((statusMask t f n &&& EBPH_PROFILE_STATUS.FROZEN ≠ 0) ↔ f = true) ∧
      ((statusMask t f n &&& EBPH_PROFILE_STATUS.NORMAL ≠ 0) ↔ n = true)) := by
  refine ⟨rfl, rfl, rfl, by decide, by decide, by decide, ?_⟩
  decide

/-- C8: the settings registry has exactly eight keys, encoded as the
distinct consecutive integers 0..7 starting at MONITORING = 0, and
`set_setting` takes one such integer key together with a value reduced
to an unsigned 64-bit integer. -/
theorem C8_settings_registry :
    settingsNames.length = 8 ∧
    settingsNames.enum.map Prod.fst = List.range 8 ∧
    settingsNames.Nodup ∧
    (∀ (key : Int) (value : Nat) (s : EngineState),
      ((set_setting key value s).1 = 0 ↔
        0 ≤ key ∧ key < (settingsNames.length : Int)) ∧
      set_setting key value s = set_setting key (value % 2 ^ 64) s) := by
  refine ⟨rfl, by decide, by decide, ?_⟩
  intro key value s
  constructor
  · by_cases h : 0 ≤ key ∧ key < (settingsNames.length : Int) <;>
      simp [set_setting, h]
  · unfold set_setting
    rw [Nat.mod_mod_of_dvd value dvd_rfl]

/-- C3: `EBPHProfileStruct.__eq__` is decided by the nine fields
`profile_key`, `status`, `anomaly_count`, `train_count`, `last_mod_count`,
`sequences`, `normal_time`, `count` and `exe` only — it returns `True`
exactly when all nine agree, is unchanged by any difference in `magic` or
the two matrices, and yields `False` (rather than raising) on an object
without the compared fields. -/
theorem C3_eq_nine_fields :
    ∀ p q : EBPHProfileStruct,
      (EBPHProfileStruct.eq p (some q) = true ↔
        (p.profile_key = q.profile_key ∧ p.status = q.status ∧
         p.anomaly_count = q.anomaly_count ∧ p.train_count = q.train_count ∧
         p.last_mod_count = q.last_mod_count ∧ p.sequences = q.sequences ∧
         p.normal_time = q.normal_time ∧ p.count = q.count ∧
         p.exe = q.exe)) ∧
      (∀ (m : Nat) (tr te : EBPHProfileDataStruct),
        EBPHProfileStruct.eq p
            (some { q with magic := m, train := tr, test := te }) =
          EBPHProfileStruct.eq p (some q)) ∧
      EBPHProfileStruct.eq p none = false := by
  intro p q
  refine ⟨?_, ?_, rfl⟩
  · simp [EBPHProfileStruct.eq, and_assoc]
  · intro m tr te
    simp [EBPHProfileStruct.eq]

/-- Helper: the value `from_bpf` returns when the profile key is present
in the `profiles` map. -/
lemma from_bpf_some (bpf : BPFState) (exe : List Nat) (key : Nat)
    (leaf : ProfileLeaf) (hp : bpf.profiles (key % 2 ^ 64) = some leaf) :
    EBPHProfileStruct.from_bpf bpf exe key = Except.ok
      { magic := profile_magic % 2 ^ 64,
        profile_key := key % 2 ^ 64,
        status := leaf.status % 2 ^ 8,
        anomaly_count := leaf.anomaly_count % 2 ^ 64,
        train_count := leaf.train_count % 2 ^ 64,
        last_mod_count := leaf.last_mod_count % 2 ^ 64,
        sequences := leaf.sequences % 2 ^ 64,
        normal_time := leaf.normal_time % 2 ^ 64,
        count := leaf.count % 2 ^ 64,
        train := (bpf.training_data (key % 2 ^ 64)).getD
                   EBPHProfileDataStruct.zero,
        test := (bpf.testing_data (key % 2 ^ 64)).getD
                  EBPHProfileDataStruct.zero,
        exe := exeRead exe } := by
  norm_num at hp ⊢
  cases ht : bpf.training_data (key % 18446744073709551616) <;>
    cases hs : bpf.testing_data (key % 18446744073709551616) <;>
      simp [EBPHProfileStruct.from_bpf, EBPHProfileStruct.zero, hp, ht, hs]

/-- C9: `from_bpf` fails exactly when the key is absent from the
`profiles` map; when the key is present but missing from `training_data`
or `testing_data`, no error occurs and the corresponding matrix stays all
zeros while the scalar header, the recomputed `magic`, the key and `exe`
are still filled in. -/
theorem C9_from_bpf_partial_data :
    ∀ (bpf : BPFState) (exe : List Nat) (key : Nat),
      ((∃ e, EBPHProfileStruct.from_bpf bpf exe key = Except.error e) ↔
        bpf.profiles (key % 2 ^ 64) = none) ∧
      (∀ leaf, bpf.profiles (key % 2 ^ 64) = some leaf →
        ∃ p, EBPHProfileStruct.from_bpf bpf exe key = Except.ok p ∧
          (bpf.training_data (key % 2 ^ 64) = none →
            p.train = EBPHProfileDataStruct.zero) ∧
          (bpf.testing_data (key % 2 ^ 64) = none →
            p.test = EBPHProfileDataStruct.zero) ∧
          p.status = leaf.status % 2 ^ 8 ∧
          p.anomaly_count = leaf.anomaly_count % 2 ^ 64 ∧
          p.train_count = leaf.train_count % 2 ^ 64 ∧
          p.last_mod_count = leaf.last_mod_count % 2 ^ 64 ∧
          p.sequences = leaf.sequences % 2 ^ 64 ∧
          p.normal_time = leaf.normal_time % 2 ^ 64 ∧
          p.count = leaf.count % 2 ^ 64 ∧
          p.magic = profile_magic % 2 ^ 64 ∧
          p.profile_key = key % 2 ^ 64 ∧
          p.exe = exeRead exe) := by
  intro bpf exe key
  cases hp : bpf.profiles (key % 2 ^ 64) with
  | none =>
    norm_num at hp ⊢
    simp [EBPHProfileStruct.from_bpf, hp]
  | some leaf0 =>
    have hfrom := from_bpf_some bpf exe key leaf0 (by norm_num; exact hp)
    norm_num at hp hfrom ⊢
    refine ⟨by simp [hfrom], ?_⟩
    exact ⟨_, hfrom, by intro h; simp [h], by intro h; simp [h],
           rfl, rfl, rfl, rfl, rfl, rfl, rfl, rfl, rfl, rfl⟩

/-- Concrete leaf for the C9 witness. -/
def leaf9 : ProfileLeaf :=
  { status := 1, anomaly_count := 2, train_count := 3, last_mod_count := 4,
    sequences := 5, normal_time := 6, count := 7 }

/-- Concrete BPF state for the C9 witness: key 7 present in `profiles`
and `testing_data` but absent from `training_data`. -/
def bpf9 : BPFState :=
  { profiles := fun k => if k = 7 then some leaf9 else none,
    training_data := fun _ => none,
    testing_data := fun k =>
      if k = 7 then some ⟨List.replicate flagsLen 1⟩ else none }

/-- Witness for C9 at the concrete state `bpf9`, exe `[47, 98]`, key 7. -/
theorem C9_from_bpf_partial_data_witness :
    bpf9.profiles (7 % 2 ^ 64) = some leaf9 ∧
    ∃ p, EBPHProfileStruct.from_bpf bpf9 [47, 98] 7 = Except.ok p ∧
      (bpf9.training_data (7 % 2 ^ 64) = none →
        p.train = EBPHProfileDataStruct.zero) ∧
      (bpf9.testing_data (7 % 2 ^ 64) = none →
        p.test = EBPHProfileDataStruct.zero) ∧
      p.status = leaf9.status % 2 ^ 8 ∧
      p.anomaly_count = leaf9.anomaly_count % 2 ^ 64 ∧
      p.train_count = leaf9.train_count % 2 ^ 64 ∧
      p.last_mod_count = leaf9.last_mod_count % 2 ^ 64 ∧
      p.sequences = leaf9.sequences % 2 ^ 64 ∧
      p.normal_time = leaf9.normal_time % 2 ^ 64 ∧
      p.count = leaf9.count % 2 ^ 64 ∧
      p.magic = profile_magic % 2 ^ 64 ∧
      p.profile_key = 7 % 2 ^ 64 ∧
      p.exe = exeRead [47, 98] :=
  ⟨rfl, (C9_from_bpf_partial_data bpf9 [47, 98] 7).2 leaf9 rfl⟩

/-- Helper: reading back a NUL-free byte string is the identity. -/
lemma takeWhile_ne_zero (l : List Nat) (h : ∀ b ∈ l, b ≠ 0) :
    l.takeWhile (· ≠ 0) = l :=
  List.takeWhile_eq_self_iff.2 (by simpa using h)

/-- Helper: the same fact in the simp normal form of the predicate. -/
lemma takeWhile_ne_zero_decide (l : List Nat) (h : ∀ b ∈ l, b ≠ 0) :
    l.takeWhile (fun x => !decide (x = 0)) = l :=
  List.takeWhile_eq_self_iff.2 (by simpa using h)

/-- Helper: the magic number fits in 64 bits. -/
lemma profile_magic_lt : profile_magic < 2 ^ 64 := by
  unfold profile_magic calculate_profile_magic
  exact Nat.lt_of_le_of_lt Nat.and_le_right (by norm_num)

/-- C1: round-trip persistence — exporting a well-formed profile with
`load_into_bpf` and reloading it with `from_bpf` under its own exe and key
yields an identical profile when its `magic` matches the recomputed magic;
in particular every persisted field (magic, profile_key, status, the six
counters, both matrices and exe) of the reloaded profile equals that of
the original. -/
theorem C1_round_trip (p : EBPHProfileStruct) (bpf : BPFState)
    (hwf : p.wf) (hmagic : p.magic = profile_magic) :
    EBPHProfileStruct.from_bpf (p.load_into_bpf bpf) p.exe p.profile_key =
      Except.ok p := by
  have hleaf : (p.load_into_bpf bpf).profiles (p.profile_key % 2 ^ 64) =
      some { status := p.status % 2 ^ 8,
             anomaly_count := p.anomaly_count % 2 ^ 64,
             train_count := p.train_count % 2 ^ 64,
             last_mod_count := p.last_mod_count % 2 ^ 64,
             sequences := p.sequences % 2 ^ 64,
             normal_time := p.normal_time % 2 ^ 64,
             count := p.count % 2 ^ 64 } := by
    simp [EBPHProfileStruct.load_into_bpf]
  have htrain : (p.load_into_bpf bpf).training_data
      (p.profile_key % 2 ^ 64) = some p.train := by
    simp [EBPHProfileStruct.load_into_bpf]
  have htest : (p.load_into_bpf bpf).testing_data
      (p.profile_key % 2 ^ 64) = some p.test := by
    simp [EBPHProfileStruct.load_into_bpf]
  rw [from_bpf_some _ _ _ _ hleaf, htrain, htest]
  obtain ⟨hm, hk, hs, ha, htc, hl, hsq, hnt, hc, _, _, hel, he0, _⟩ := hwf
  rw [← hmagic]
  norm_num at hm hk hs ha htc hl hsq hnt hc
  simp [Nat.mod_eq_of_lt hm, Nat.mod_eq_of_lt hk, Nat.mod_eq_of_lt hs,
        Nat.mod_eq_of_lt ha, Nat.mod_eq_of_lt htc, Nat.mod_eq_of_lt hl,
        Nat.mod_eq_of_lt hsq, Nat.mod_eq_of_lt hnt, Nat.mod_eq_of_lt hc,
        exeRead, takeWhile_ne_zero_decide _ he0]

/-- Concrete well-formed profile for the C1 witness. -/
def profile1 : EBPHProfileStruct :=
  { magic := profile_magic, profile_key := 42, status := 5,
    anomaly_count := 1, train_count := 2, last_mod_count := 3,
    sequences := 4, normal_time := 6, count := 8,
    train := ⟨List.replicate flagsLen 1⟩,
    test := EBPHProfileDataStruct.zero,
    exe := [47, 98, 105, 110] }

/-- The empty BPF state for the C1 witness. -/
def bpf0 : BPFState :=
  { profiles := fun _ => none, training_data := fun _ => none,
    testing_data := fun _ => none }

/-- Helper: a constant byte-valued matrix is well formed. -/
lemma replicate_data_wf (v : Nat) (hv : v < 256) :
    (EBPHProfileDataStruct.mk (List.replicate flagsLen v)).wf := by
  refine ⟨by simp, ?_⟩
  intro x hx
  rw [List.eq_of_mem_replicate hx]
  exact hv

/-- Helper: the concrete witness profile is well formed. -/
lemma profile1_wf : profile1.wf :=
  ⟨profile_magic_lt, by norm_num [profile1], by norm_num [profile1],
   by norm_num [profile1], by norm_num [profile1], by norm_num [profile1],
   by norm_num [profile1], by norm_num [profile1], by norm_num [profile1],
   replicate_data_wf 1 (by norm_num), replicate_data_wf 0 (by norm_num),
   by norm_num [profile1, PATH_MAX], by decide, by decide⟩

/-- Witness for C1 at the concrete profile `profile1` and empty state. -/
theorem C1_round_trip_witness :
    profile1.wf ∧ profile1.magic = profile_magic ∧
    EBPHProfileStruct.from_bpf (profile1.load_into_bpf bpf0) profile1.exe
        profile1.profile_key = Except.ok profile1 :=
  ⟨profile1_wf, rfl, C1_round_trip profile1 bpf0 profile1_wf rfl⟩

/-- Helper: a bitwise OR is nonzero whenever its right operand is. -/
lemma or_ne_zero_right (x y : Nat) (h : y ≠ 0) : x ||| y ≠ 0 := by
  intro hc
  apply h
  rcases Nat.exists_most_significant_bit h with ⟨i, hi, _⟩
  have h2 : (x ||| y).testBit i = true := by
    rw [Nat.testBit_lor]
    simp [hi]
  rw [hc] at h2
  simp at h2

/-- C4: after a successful `tolerize_profile` on an existing profile, the
train matrix becomes the bitwise OR of the old train and test matrices —
so every bit set in `test` is also set in `train` — and the profile's
`anomaly_count` equals 0. -/
theorem C4_tolerize_convergence (key : Nat) (s : EngineState)
    (leaf : ProfileLeaf) (train test : EBPHProfileDataStruct)
    (hp : s.bpf.profiles (key % 2 ^ 64) = some leaf)
    (ht : s.bpf.training_data (key % 2 ^ 64) = some train)
    (hs : s.bpf.testing_data (key % 2 ^ 64) = some test)
    (hlen : train.flags.length = test.flags.length) :
    (tolerize_profile key s).1 = 0 ∧
    ∃ leaf2 merged,
      (tolerize_profile key s).2.bpf.profiles (key % 2 ^ 64) = some leaf2 ∧
      leaf2.anomaly_count = 0 ∧
      (tolerize_profile key s).2.bpf.training_data (key % 2 ^ 64) =
        some merged ∧
      merged.flags = List.zipWith (· ||| ·) train.flags test.flags ∧
      ∀ i, i < test.flags.length → test.flags.getD i 0 ≠ 0 →
        merged.flags.getD i 0 ≠ 0 := by
  norm_num at hp ht hs ⊢
  refine ⟨?_, ?_⟩
  · simp [tolerize_profile, hp]
  · refine Exists.intro { leaf with anomaly_count := 0 }
      ⟨?_, rfl, Exists.intro
        (EBPHProfileDataStruct.mk
          (List.zipWith (· ||| ·) train.flags test.flags)) ⟨?_, rfl, ?_⟩⟩
    · simp [tolerize_profile, hp, ht, hs]
    · simp [tolerize_profile, hp, ht, hs]
    · intro i hi hne
      have hit : i < train.flags.length := by rw [hlen]; exact hi
      rw [List.getElem?_eq_getElem hi, Option.getD_some] at hne
      have hz : (List.zipWith (· ||| ·) train.flags test.flags)[i]? =
          some (train.flags[i] ||| test.flags[i]) := by
        rw [List.getElem?_zipWith', List.getElem?_eq_getElem hit,
            List.getElem?_eq_getElem hi]
        rfl
      show ¬(List.zipWith (· ||| ·) train.flags test.flags)[i]?.getD 0 = 0
      rw [hz, Option.getD_some]
      exact or_ne_zero_right _ _ hne

/-- Concrete engine state for the C4 witness: key 11 bound with two
singleton-style matrices. -/
def state4 : EngineState :=
  { bpf :=
      { profiles := fun k => if k = 11 then some leaf9 else none,
        training_data := fun k =>
          if k = 11 then some ⟨[1, 0, 0, 1]⟩ else none,
        testing_data := fun k =>
          if k = 11 then some ⟨[0, 1, 0, 1]⟩ else none },
    processes := fun _ => none,
    settings := fun _ => 0 }

/-- Witness for C4 at the concrete state `state4` and key 11. -/
theorem C4_tolerize_convergence_witness :
    state4.bpf.profiles (11 % 2 ^ 64) = some leaf9 ∧
    ((tolerize_profile 11 state4).1 = 0 ∧
      ∃ leaf2 merged,
        (tolerize_profile 11 state4).2.bpf.profiles (11 % 2 ^ 64) =
          some leaf2 ∧
        leaf2.anomaly_count = 0 ∧
        (tolerize_profile 11 state4).2.bpf.training_data (11 % 2 ^ 64) =
          some merged ∧
        merged.flags =
          List.zipWith (· ||| ·) (⟨[1, 0, 0, 1]⟩ : EBPHProfileDataStruct).flags
            (⟨[0, 1, 0, 1]⟩ : EBPHProfileDataStruct).flags ∧
        ∀ i, i < (⟨[0, 1, 0, 1]⟩ : EBPHProfileDataStruct).flags.length →
          (⟨[0, 1, 0, 1]⟩ : EBPHProfileDataStruct).flags.getD i 0 ≠ 0 →
            merged.flags.getD i 0 ≠ 0) :=
  ⟨rfl, C4_tolerize_convergence 11 state4 leaf9 ⟨[1, 0, 0, 1]⟩ ⟨[0, 1, 0, 1]⟩
          rfl rfl rfl rfl⟩

/-- Helper: status code of `set_setting`. -/
lemma set_setting_code (key : Int) (value : Nat) (s : EngineState) :
    (set_setting key value s).1 = 0 ∨ (set_setting key value s).1 < 0 := by
  unfold set_setting
  by_cases h : 0 ≤ key ∧ key < (settingsNames.length : Int) <;> simp [h]

/-- Helper: status code of `normalize_profile`. -/
lemma normalize_profile_code (pk : Nat) (s : EngineState) :
    (normalize_profile pk s).1 = 0 ∨ (normalize_profile pk s).1 < 0 := by
  unfold normalize_profile
  cases h : s.bpf.profiles (pk % 18446744073709551616) <;> simp [h]

/-- Helper: status code of `sensitize_profile`. -/
lemma sensitize_profile_code (pk : Nat) (s : EngineState) :
    (sensitize_profile pk s).1 = 0 ∨ (sensitize_profile pk s).1 < 0 := by
  unfold sensitize_profile
  cases h : s.bpf.profiles (pk % 18446744073709551616) <;> simp [h]

/-- Helper: status code of `tolerize_profile`. -/
lemma tolerize_profile_code (pk : Nat) (s : EngineState) :
    (tolerize_profile pk s).1 = 0 ∨ (tolerize_profile pk s).1 < 0 := by
  unfold tolerize_profile
  cases h : s.bpf.profiles (pk % 18446744073709551616) <;> simp [h]

/-- Helper: status code of a `*_process` delegation. -/
lemma resolve_process_code (pid : Nat) (s : EngineState)
    (onProfile : Nat → EngineState → Int × EngineState)
    (hcmd : ∀ pk t, (onProfile pk t).1 = 0 ∨ (onProfile pk t).1 < 0) :
    (resolve_process pid s onProfile).1 = 0 ∨
      (resolve_process pid s onProfile).1 < 0 := by
  unfold resolve_process
  cases h : s.processes (pid % 2 ^ 32) with
  | none => simp
  | some pk => simpa using hcmd pk s

/-- Helper: status code of `bootstrap_process`. -/
lemma bootstrap_process_code (pk pid tgid : Nat) (path : List Nat)
    (s : EngineState) :
    (bootstrap_process pk pid tgid path s).1 = 0 ∨
      (bootstrap_process pk pid tgid path s).1 < 0 := by
  unfold bootstrap_process
  by_cases h : PATH_MAX ≤ path.length ∨ 0 ∈ path <;> simp [h]

/-- C5: every administrative command — `bootstrap_process`,
`normalize_profile`, `normalize_process`, `sensitize_profile`,
`sensitize_process`, `tolerize_profile`, `tolerize_process`,
`set_setting` — returns an integer status that is 0 on success and a
negative error code on failure; for the `*_profile` commands the status
is 0 exactly when the profile exists. -/
theorem C5_admin_interface (key : Int) (value pk pid tgid : Nat)
    (path : List Nat) (s : EngineState) :
    ((set_setting key value s).1 = 0 ∨ (set_setting key value s).1 < 0) ∧
    ((normalize_profile pk s).1 = 0 ∨ (normalize_profile pk s).1 < 0) ∧
    ((sensitize_profile pk s).1 = 0 ∨ (sensitize_profile pk s).1 < 0) ∧
    ((tolerize_profile pk s).1 = 0 ∨ (tolerize_profile pk s).1 < 0) ∧
    ((normalize_process pid s).1 = 0 ∨ (normalize_process pid s).1 < 0) ∧
    ((sensitize_process pid s).1 = 0 ∨ (sensitize_process pid s).1 < 0) ∧
    ((tolerize_process pid s).1 = 0 ∨ (tolerize_process pid s).1 < 0) ∧
    ((bootstrap_process pk pid tgid path s).1 = 0 ∨
      (bootstrap_process pk pid tgid path s).1 < 0) ∧
    ((normalize_profile pk s).1 = 0 ↔
      (s.bpf.profiles (pk % 2 ^ 64)).isSome) ∧
    ((sensitize_profile pk s).1 = 0 ↔
      (s.bpf.profiles (pk % 2 ^ 64)).isSome) ∧
    ((tolerize_profile pk s).1 = 0 ↔
      (s.bpf.profiles (pk % 2 ^ 64)).isSome) := by
  refine ⟨set_setting_code key value s, normalize_profile_code pk s,
          sensitize_profile_code pk s, tolerize_profile_code pk s,
          resolve_process_code pid s _ fun a t => normalize_profile_code a t,
          resolve_process_code pid s _ fun a t => sensitize_profile_code a t,
          resolve_process_code pid s _ fun a t => tolerize_profile_code a t,
          bootstrap_process_code pk pid tgid path s, ?_, ?_, ?_⟩
  · unfold normalize_profile
    norm_num
    cases h : s.bpf.profiles (pk % 18446744073709551616) <;> simp [h]
  · unfold sensitize_profile
    norm_num
    cases h : s.bpf.profiles (pk % 18446744073709551616) <;> simp [h]
  · unfold tolerize_profile
    norm_num
    cases h : s.bpf.profiles (pk % 18446744073709551616) <;> simp [h]

end EbpH
